import Mathlib

/-!
The useradm authorization engine and bootstrap login.

A shallow embedding of `authz_simple.go` (the `SimpleAuthz` authorizer) and of the
parts of the login orchestrator that the tests in `useradm_test.go` exercise.

Go values are represented as follows.

* `string` is `String`, compared with `=` (Go compares strings for exact equality,
  case-sensitively).
* `int64` timestamps are `Int`.
* `error` is `Option GoError`; `nil` is `none`.
* a pointer that may be `nil` is an `Option`.
* an interface value is a record of its methods over a hidden receiver state.
-/

namespace Useradm

/-! ## Errors -/

/-- The package-level error variables that the sources under study name. Each is a distinct
Go value; the text each one carries is declared outside the files at hand. -/
inductive Sentinel where
  /-- The variable `authz.ErrAuthzUnauthorized`. -/
  | ErrAuthzUnauthorized
  /-- The variable `authz.ErrAuthzTokenInvalid`. -/
  | ErrAuthzTokenInvalid
  /-- The variable `ErrUnauthorized` of package `main`. -/
  | ErrUnauthorized
  /-- The variable `ErrDuplicateEmail` of package `main`. -/
  | ErrDuplicateEmail
  /-- The variable `ErrUserNotInitial` of package `main`. -/
  | ErrUserNotInitial
  deriving DecidableEq, Repr

/-- A non-nil Go `error` value: a package-level variable, a value made by `errors.New`, or a
cause wrapped with a message by `errors.Wrap` of `github.com/pkg/errors`. -/
inductive GoError where
  | sentinel (s : Sentinel)
  | New (text : String)
  | Wrap (cause : GoError) (message : String)
  deriving DecidableEq, Repr

/-- The `Error()` method. `texts` supplies the text of each package-level variable; a wrapped
error prints its message, a colon and a blank, and then its cause. -/
def GoError.Error (texts : Sentinel → String) : GoError → String
  | .sentinel s => texts s
  | .New text => text
  | .Wrap cause message => message ++ ": " ++ GoError.Error texts cause

/-- Modelled from the spec: the variable `authz.ErrAuthzUnauthorized`, declared in package
`authz`, whose source is not among the files at hand (the spec's `Unauthorized` deny reason). -/
def ErrAuthzUnauthorized : GoError := .sentinel .ErrAuthzUnauthorized

/-- Modelled from the spec: the variable `authz.ErrAuthzTokenInvalid`, declared in package
`authz`, whose source is not among the files at hand (the spec's `TokenInvalid` deny reason). -/
def ErrAuthzTokenInvalid : GoError := .sentinel .ErrAuthzTokenInvalid

/-- Modelled from the spec: the variable `ErrUnauthorized` that `useradm_test.go` expects from
`Login` on a non-empty store; its declaration is not among the files at hand. -/
def ErrUnauthorized : GoError := .sentinel .ErrUnauthorized

/-! ## Claims and tokens -/

/-- The `Claims` struct, with the fields that `jwt_test.go` populates. -/
structure Claims where
  Issuer : String := ""
  Subject : String := ""
  Audience : String := ""
  ID : String := ""
  IssuedAt : Int := 0
  NotBefore : Int := 0
  ExpiresAt : Int := 0
  Scope : String := ""
  deriving DecidableEq, Repr

/-- The `Token` struct: a wrapper around `Claims`. -/
structure Token where
  Claims : Claims := {}
  deriving DecidableEq, Repr

/-- Modelled from the spec: the constant `ScopeAll`, declared outside the files at hand; the
spec gives the unrestricted scope as `mender.*`. -/
def ScopeAll : String := "mender.*"

/-- Modelled from the spec: the constant `ScopeInitialUserCreate`, declared outside the files
at hand; the spec gives the bootstrap scope as `mender.users.initial.create`. -/
def ScopeInitialUserCreate : String := "mender.users.initial.create"

/-! ## Collaborators -/

/-- The `log.Logger` of `go-lib-micro`, an external type; only its identity matters here. -/
structure Logger where
  tag : Nat
  deriving DecidableEq, Repr

/-- The `JWTHandler` interface as `SimpleAuthz` uses it: `FromJWT` and `WithLog`. The dynamic
value behind the interface is `self`, of some type `State`; `withLog` yields the receiver of
the handler that `WithLog` returns. `FromJWT` either fails with an error or yields a token. -/
structure JWTHandler where
  State : Type
  self : State
  fromJWT : State → String → Except GoError Token
  withLog : State → Option Logger → State

/-- The method `WithLog(l)`: a handler of the same dynamic type over the new receiver. -/
def JWTHandler.WithLog (h : JWTHandler) (l : Option Logger) : JWTHandler :=
  { h with self := h.withLog h.self l }

/-- The method `FromJWT(token)`. -/
def JWTHandler.FromJWT (h : JWTHandler) (token : String) : Except GoError Token :=
  h.fromJWT h.self token

/-! ## `authz_simple.go` -/

def ResourceLogin : String := "auth:login"

def ResourceInitialUser : String := "users:initial"

/-- The `SimpleAuthz` struct. -/
structure SimpleAuthz where
  jwth : JWTHandler
  l : Option Logger

def NewSimpleAuthz (jwth : JWTHandler) (l : Option Logger) : SimpleAuthz :=
  { jwth := jwth, l := l }

/-- The method `SimpleAuthz.Authorize`; the result is the returned `error`. -/
def SimpleAuthz.Authorize (sa : SimpleAuthz) (token : String) (resource action : String) :
    Option GoError :=
  -- bypass checks for login
  if resource = ResourceLogin then
    none
  else
    -- for other resources - parse token
    match (sa.jwth.WithLog sa.l).FromJWT token with
    | .error _ => some ErrAuthzTokenInvalid
    | .ok tok =>
      -- check correct scope for initial user creation
      let scope := tok.Claims.Scope
      if scope = ScopeInitialUserCreate then
        if action = "POST" ∧ resource = ResourceInitialUser then
          none
        else
          some ErrAuthzUnauthorized
      -- allow all for 'mender.*'
      else if scope = ScopeAll then
        none
      else
        some ErrAuthzUnauthorized

/-- The method `SimpleAuthz.WithLog`. -/
def SimpleAuthz.WithLog (sa : SimpleAuthz) (l : Option Logger) : SimpleAuthz :=
  { jwth := sa.jwth.WithLog l, l := l }

/-! ## The login orchestrator

`useradm.go` is not among the files at hand; `useradm_test.go` and `datastore_mock_test.go`
show its types and how it is called. -/

/-- The `UserModel` struct, with the fields that `useradm_test.go` populates. -/
structure UserModel where
  Email : String := ""
  Password : String := ""
  deriving DecidableEq, Repr

/-- The data store interface as `datastore_mock_test.go` implements it. The dynamic value behind
the interface is `self`; `isEmpty` is the answer of `IsEmpty()` as the pair the method returns,
and `createUser` yields the store after the call together with the returned error. -/
structure DataStore where
  State : Type
  self : State
  isEmpty : State → Bool × Option GoError
  createUser : State → UserModel → State × Option GoError

/-- The method `IsEmpty()`. -/
def DataStore.IsEmpty (db : DataStore) : Bool × Option GoError :=
  db.isEmpty db.self

/-- The `UserAdmConfig` struct, with the fields that `useradm_test.go` populates;
`ExpirationTime` is in seconds. -/
structure UserAdmConfig where
  Issuer : String := ""
  ExpirationTime : Int := 0
  deriving DecidableEq, Repr

/-- The `UserAdm` struct behind `NewUserAdm(jwtHandler, db, config)`; the tests pass `nil` for
the handler. -/
structure UserAdm where
  jwtHandler : Option JWTHandler
  db : DataStore
  config : UserAdmConfig

def NewUserAdm (jwtHandler : Option JWTHandler) (db : DataStore) (config : UserAdmConfig) :
    UserAdm :=
  { jwtHandler := jwtHandler, db := db, config := config }

/-- The two lower-case hexadecimal digits of a byte. -/
def hexByte (b : Nat) : List Char :=
  [Nat.digitChar (b / 16 % 16), Nat.digitChar (b % 16)]

/-- The sixteen bytes of a random identifier: byte `i` is the `i`-th random byte, with the
version bits of byte 6 and the variant bits of byte 8 set as a random UUID has them. -/
def uuidByte (rand : Nat → Nat) (i : Nat) : Nat :=
  if i = 6 then rand 6 % 16 + 64
  else if i = 8 then rand 8 % 64 + 128
  else rand i % 256

/-- Modelled from the spec: the fresh identifier of a token, whose generation is part of
`useradm.go`, which is not among the files at hand. Section 3 of the spec asks for a
token-unique identifier, generated fresh at issuance and non-empty, and does not fix its form;
it is rendered here as the text of a random UUID, thirty-two hexadecimal digits in five groups,
over the random bytes `rand` that the environment supplies. -/
def newTokenID (rand : Nat → Nat) : String :=
  String.mk
    (hexByte (uuidByte rand 0) ++ hexByte (uuidByte rand 1) ++ hexByte (uuidByte rand 2)
      ++ hexByte (uuidByte rand 3) ++ '-' ::
     (hexByte (uuidByte rand 4) ++ hexByte (uuidByte rand 5) ++ '-' ::
     (hexByte (uuidByte rand 6) ++ hexByte (uuidByte rand 7) ++ '-' ::
     (hexByte (uuidByte rand 8) ++ hexByte (uuidByte rand 9) ++ '-' ::
     (hexByte (uuidByte rand 10) ++ hexByte (uuidByte rand 11) ++ hexByte (uuidByte rand 12)
      ++ hexByte (uuidByte rand 13) ++ hexByte (uuidByte rand 14)
      ++ hexByte (uuidByte rand 15))))))

/-- Modelled from the spec: the method `UserAdm.Login` of `useradm.go`, which is not among the
files at hand. Section 4.3 of the spec: query the store's emptiness; a failed query is returned
wrapped; on an empty store build the bootstrap claims, with a fresh identifier; otherwise return
`Unauthorized`. The wrapping message is the one `useradm_test.go` expects. `now` is the current
Unix time and `rand` the random bytes, both taken from the environment. The result is the
returned pair `(*Token, error)`; as in the test, the token is returned unsigned and the handler
is not consulted. -/
def UserAdm.Login (u : UserAdm) (now : Int) (rand : Nat → Nat) (_email _pass : String) :
    Option Token × Option GoError :=
  match u.db.IsEmpty with
  | (_, some err) => (none, some (GoError.Wrap err "useradm: failed to query database"))
  | (true, none) =>
    (some { Claims := { ID := newTokenID rand
                        Issuer := u.config.Issuer
                        IssuedAt := now
                        ExpiresAt := now + u.config.ExpirationTime
                        Subject := "initial"
                        Scope := ScopeInitialUserCreate } }, none)
  | (false, none) => (none, some ErrUnauthorized)

/-- Modelled from the spec: the variable `ErrDuplicateEmail` that the store reports for a
duplicate email and that `useradm_test.go` expects back from `CreateUser`; its declaration is
not among the files at hand. -/
def ErrDuplicateEmail : GoError := .sentinel .ErrDuplicateEmail

/-- Modelled from the spec: the variable `ErrUserNotInitial` that `useradm_test.go` expects
from `CreateUserInitial` on a non-empty store; its declaration is not among the files at
hand. -/
def ErrUserNotInitial : GoError := .sentinel .ErrUserNotInitial

/-- The method `CreateUser(u)` of the store: the store after the call, and the returned
error. -/
def DataStore.CreateUser (db : DataStore) (user : UserModel) : DataStore × Option GoError :=
  ({ db with self := (db.createUser db.self user).1 }, (db.createUser db.self user).2)

/-- Modelled from the spec: the method `UserAdm.CreateUser` of `useradm.go`, which is not among
the files at hand. Section 4.3 of the spec: delegate to the store's create operation, return
`DuplicateEmail` as the store reported it, and wrap any other store error. The wrapping message
is the one `useradm_test.go` expects. The result is the store after the call and the returned
error. -/
def UserAdm.CreateUser (u : UserAdm) (user : UserModel) : DataStore × Option GoError :=
  match u.db.CreateUser user with
  | (db, none) => (db, none)
  | (db, some err) =>
    if err = ErrDuplicateEmail then
      (db, some err)
    else
      (db, some (GoError.Wrap err "useradm: failed to create user in the db"))

/-- Modelled from the spec: the method `UserAdm.CreateUserInitial` of `useradm.go`, which is not
among the files at hand. Section 4.3 of the spec: check the store's emptiness first; a failed
query is returned wrapped; a non-empty store fails with `ErrUserNotInitial` without attempting
creation; an empty store delegates to the create operation. The wrapping message is the one
`useradm_test.go` expects. The result is the store after the call and the returned error. -/
def UserAdm.CreateUserInitial (u : UserAdm) (user : UserModel) : DataStore × Option GoError :=
  match u.db.IsEmpty with
  | (_, some err) => (u.db, some (GoError.Wrap err "useradm: failed to check if db is empty"))
  | (false, none) => (u.db, some ErrUserNotInitial)
  | (true, none) => u.CreateUser user

/-! ## The token codec

`jwt.go` is not among the files at hand; `jwt_test.go` shows how the codec is called, two
tokens it accepts and the error it returns for a string that is no token. -/

/-- Modelled from the spec: the variable `ErrTokenInvalid` of `jwt.go`, which is not among the
files at hand; `jwt_test.go` expects its text to be `jwt: token invalid`. -/
def ErrTokenInvalid : GoError := .New "jwt: token invalid"

/-- The value of a character of the base64url alphabet (`A`-`Z`, `a`-`z`, `0`-`9`, `-`, `_`),
and nothing for any other character. -/
def base64URLValue (c : Char) : Option Nat :=
  if 'A' ≤ c ∧ c ≤ 'Z' then some (c.toNat - 'A'.toNat)
  else if 'a' ≤ c ∧ c ≤ 'z' then some (c.toNat - 'a'.toNat + 26)
  else if '0' ≤ c ∧ c ≤ '9' then some (c.toNat - '0'.toNat + 52)
  else if c = '-' then some 62
  else if c = '_' then some 63
  else none

/-- The bytes of a padded base64url text without line breaks: quanta of four alphabet
characters stand for three bytes each; the last quantum may end in `==` and stand for one byte,
or end in `=` and stand for two; nothing may follow the padding, and the text may not end inside
a quantum. Bits of the last quantum that belong to no byte are not looked at. -/
def decodeQuanta : List Char → Option (List Nat)
  | [] => some []
  | a :: b :: c :: d :: rest =>
    match base64URLValue a, base64URLValue b with
    | some va, some vb =>
      if c = '=' then
        if d = '=' ∧ rest = [] then some [va * 4 + vb / 16] else none
      else
        match base64URLValue c with
        | none => none
        | some vc =>
          if d = '=' then
            if rest = [] then some [va * 4 + vb / 16, vb % 16 * 16 + vc / 4] else none
          else
            match base64URLValue d with
            | none => none
            | some vd =>
              (decodeQuanta rest).map (fun bytes =>
                (va * 4 + vb / 16) :: (vb % 16 * 16 + vc / 4) :: (vc % 4 * 64 + vd) :: bytes)
    | _, _ => none
  | _ => none

/-- The function `base64.URLEncoding.DecodeString` of the Go library: the padded base64url
decoding, which passes over the characters `\n` and `\r` wherever they stand. -/
def DecodeString (s : List Char) : Option (List Nat) :=
  decodeQuanta (s.filter (fun c => !(c = '\n' || c = '\r')))

/-- Modelled from the spec: the decoding of one base64url segment of the wire format of
section 6 into bytes, as the JWT library that `jwt_test.go` imports does it: the segment is
first padded with `=` to a length, in bytes, that is a multiple of four, and then decoded as
padded base64url, so that a segment is accepted with or without its padding. -/
def DecodeSegment (seg : List Char) : Option (List Nat) :=
  let l := (String.mk seg).utf8ByteSize % 4
  DecodeString (if l > 0 then seg ++ List.replicate (4 - l) '=' else seg)

/-- Modelled from the spec: the RS256 handler of `jwt.go`, which is not among the files at hand.
Once the three segments of a token are decoded, the rest of the verification of section 4.1 is
the work of the held key and of the JWT library: `parseVerified header payload signature
signingInput` is the claims of the payload when the header declares an algorithm of the expected
family and the signature verifies for the signing input, and nothing otherwise. -/
structure JWTHandlerRS256 where
  parseVerified : List Nat → List Nat → List Nat → String → Option Claims

/-- Modelled from the spec: the method `FromJWT` of the RS256 handler of `jwt.go`, which is not
among the files at hand. Section 4.1 of the spec: decode the structure, which section 6 gives as
three base64url segments separated by dots, check the algorithm and the signature, and reject
any mismatch with `TokenInvalid`; on success return the claims. -/
def JWTHandlerRS256.FromJWT (j : JWTHandlerRS256) (tokstr : String) : Except GoError Token :=
  match tokstr.data.splitOn '.' with
  | [header, payload, signature] =>
    match DecodeSegment header, DecodeSegment payload, DecodeSegment signature with
    | some h, some p, some g =>
      match j.parseVerified h p g (String.mk (header ++ '.' :: payload)) with
      | some claims => .ok { Claims := claims }
      | none => .error ErrTokenInvalid
    | _, _, _ => .error ErrTokenInvalid
  | _ => .error ErrTokenInvalid

/-- A string is three base64url segments separated by dots: it reads `h.p.g` where each of
`h`, `p` and `g` is a base64url encoding, that is, decodes to bytes. -/
def IsThreeBase64URLSegments (tokstr : String) : Prop :=
  ∃ h p g : List Char, tokstr.data = h ++ '.' :: (p ++ '.' :: g)
    ∧ (DecodeSegment h).isSome
    ∧ (DecodeSegment p).isSome
    ∧ (DecodeSegment g).isSome

/-- The check that a string is three base64url segments separated by dots, as a computation:
split on the dots, count three parts and decode each. -/
def threeSegmentsCheck (tokstr : String) : Bool :=
  match tokstr.data.splitOn '.' with
  | [h, p, g] => (DecodeSegment h).isSome && (DecodeSegment p).isSome && (DecodeSegment g).isSome
  | _ => false

/-! ## Test doubles -/

/-- A handler in the manner of the tests' mock: `FromJWT` answers from a fixed table `f`, and
`WithLog` returns the handler itself. -/
def tableHandler (f : String → Except GoError Token) : JWTHandler :=
  { State := Unit, self := (), fromJWT := fun _ t => f t, withLog := fun s _ => s }

/-- A handler whose `FromJWT` rejects every string with the error `e`. -/
def rejectingHandler (e : GoError) : JWTHandler :=
  tableHandler (fun _ => .error e)

/-- A handler whose `FromJWT` accepts every string and yields claims with the given scope. -/
def scopeHandler (scope : String) : JWTHandler :=
  tableHandler (fun _ => .ok { Claims := { Scope := scope } })

/-- A store in the manner of `mockDataStore`: `IsEmpty` returns the configured pair and
`CreateUser` the configured error; the state counts the calls of `CreateUser`. -/
def mockDataStore (empty : Bool) (emptyErr createErr : Option GoError) : DataStore :=
  { State := Nat, self := 0
    isEmpty := fun _ => (empty, emptyErr)
    createUser := fun n _ => (n + 1, createErr) }

/-- A handler that keeps the logger it was given, as a handler with a `log` field does:
`WithLog` returns a handler over the new logger, and `FromJWT` answers from the table `f`
whatever the logger is. -/
def loggedHandler (f : String → Except GoError Token) (l : Option Logger) : JWTHandler :=
  { State := Option Logger, self := l, fromJWT := fun _ t => f t, withLog := fun _ l2 => l2 }

/-- A handler that counts how often `WithLog` was applied and accepts tokens, with scope
`mender.*`, only while that count is at most one. -/
def countingHandler : JWTHandler :=
  { State := Nat, self := 0
    fromJWT := fun n _ =>
      if n ≤ 1 then .ok { Claims := { Scope := ScopeAll } } else .error ErrTokenInvalid
    withLog := fun n _ => n + 1 }

/-- A handler of the codec model that accepts every header and signature and reads the claims
`c` from every payload. -/
def acceptingRS256 (c : Claims) : JWTHandlerRS256 :=
  { parseVerified := fun _ _ _ _ => some c }

/-! ## Facts about the constants and the shape of `Authorize` -/

theorem scopeAll_ne_scopeInitialUserCreate : ScopeAll ≠ ScopeInitialUserCreate := by decide

theorem errAuthzTokenInvalid_ne_errAuthzUnauthorized :
    ErrAuthzTokenInvalid ≠ ErrAuthzUnauthorized := by decide

/-- On the login resource `Authorize` returns before it reaches the handler. -/
theorem authorize_login (sa : SimpleAuthz) (token action : String) :
    sa.Authorize token ResourceLogin action = none := by
  simp [SimpleAuthz.Authorize]

/-- Off the login resource, a failing `FromJWT` yields `ErrAuthzTokenInvalid`. -/
theorem authorize_of_error (sa : SimpleAuthz) (token resource action : String) (e : GoError)
    (hr : resource ≠ ResourceLogin)
    (hf : (sa.jwth.WithLog sa.l).FromJWT token = .error e) :
    sa.Authorize token resource action = some ErrAuthzTokenInvalid := by
  simp [SimpleAuthz.Authorize, hr, hf]

/-- Off the login resource, a successful `FromJWT` leaves the decision to the scope rules. -/
theorem authorize_of_ok (sa : SimpleAuthz) (token resource action : String) (tok : Token)
    (hr : resource ≠ ResourceLogin)
    (hf : (sa.jwth.WithLog sa.l).FromJWT token = .ok tok) :
    sa.Authorize token resource action =
      if tok.Claims.Scope = ScopeInitialUserCreate then
        if action = "POST" ∧ resource = ResourceInitialUser then none
        else some ErrAuthzUnauthorized
      else if tok.Claims.Scope = ScopeAll then none
      else some ErrAuthzUnauthorized := by
  simp [SimpleAuthz.Authorize, hr, hf]

/-! ## The decision table of `Authorize` -/

/-- C1. For every handler, token, resource and action, `Authorize` returns one of the three
distinct values `nil`, `ErrAuthzTokenInvalid`, `ErrAuthzUnauthorized`, and it returns `nil`
exactly when the resource is `auth:login`, or `FromJWT` succeeds on the token and the decoded
scope is `mender.*`, or is `mender.users.initial.create` with action `POST` on resource
`users:initial`. `FromJWT` is the call `Authorize` makes, on `sa.jwth.WithLog(sa.l)`. -/
theorem authorize_decision_table (sa : SimpleAuthz) (token resource action : String) :
    (sa.Authorize token resource action = none
      ∨ sa.Authorize token resource action = some ErrAuthzTokenInvalid
      ∨ sa.Authorize token resource action = some ErrAuthzUnauthorized)
    ∧ ErrAuthzTokenInvalid ≠ ErrAuthzUnauthorized
    ∧ (sa.Authorize token resource action = none ↔
        (resource = "auth:login"
          ∨ ∃ tok, (sa.jwth.WithLog sa.l).FromJWT token = .ok tok
              ∧ (tok.Claims.Scope = "mender.*"
                  ∨ (tok.Claims.Scope = "mender.users.initial.create"
                      ∧ action = "POST" ∧ resource = "users:initial")))) := by
  have hne : ¬ ("mender.users.initial.create" = "mender.*") := by decide
  refine ⟨?_, errAuthzTokenInvalid_ne_errAuthzUnauthorized, ?_⟩
  · by_cases hr : resource = ResourceLogin
    · subst hr; exact Or.inl (authorize_login sa token action)
    · cases hf : (sa.jwth.WithLog sa.l).FromJWT token with
      | error e => exact Or.inr (Or.inl (authorize_of_error sa token resource action e hr hf))
      | ok tok =>
        rw [authorize_of_ok sa token resource action tok hr hf]
        split_ifs <;> simp
  · by_cases hr : resource = ResourceLogin
    · have hr2 : resource = "auth:login" := hr
      rw [hr, authorize_login]
      simp [ResourceLogin]
    · have hr2 : ¬ resource = "auth:login" := hr
      cases hf : (sa.jwth.WithLog sa.l).FromJWT token with
      | error e =>
        rw [authorize_of_error sa token resource action e hr hf]
        simp [hr2]
      | ok tok =>
        rw [authorize_of_ok sa token resource action tok hr hf]
        simp only [ScopeInitialUserCreate, ScopeAll, ResourceInitialUser]
        by_cases h1 : tok.Claims.Scope = "mender.users.initial.create"
        · by_cases h2 : action = "POST" ∧ resource = "users:initial"
          · simp [h1, h2]
          · simp [h1, h2, hr2, hne]
        · by_cases h4 : tok.Claims.Scope = "mender.*"
          · simp [h1, h4]
          · simp [h1, h4, hr2]

/-! ## The bootstrap scope -/

/-- C2, as stated, fails: a token that verifies with scope `mender.users.initial.create`,
presented for the pair (`auth:login`, `POST`), which is not (`users:initial`, `POST`), is
allowed by the login bypass instead of being denied with `ErrAuthzUnauthorized`. -/
theorem bootstrap_allowlist_login_allowed :
    ((NewSimpleAuthz (scopeHandler "mender.users.initial.create") none).jwth.WithLog none).FromJWT
        "bootstrap-token" = .ok { Claims := { Scope := "mender.users.initial.create" } }
    ∧ ("auth:login", "POST") ≠ ("users:initial", "POST")
    ∧ (NewSimpleAuthz (scopeHandler "mender.users.initial.create") none).Authorize
        "bootstrap-token" "auth:login" "POST" = none
    ∧ (NewSimpleAuthz (scopeHandler "mender.users.initial.create") none).Authorize
        "bootstrap-token" "auth:login" "POST" ≠ some ErrAuthzUnauthorized := by
  refine ⟨rfl, by decide, by decide, by decide⟩

/-- C2, amended. For every token that verifies with scope `mender.users.initial.create`,
`Authorize` allows exactly the pair (`users:initial`, `POST`) and every pair whose resource is
`auth:login`, and denies every other pair with `ErrAuthzUnauthorized`; in particular it denies
(`users:initial`, `GET`) and allows (`auth:login`, `POST`). -/
theorem bootstrap_allowlist_with_login_bypass (sa : SimpleAuthz) (token : String) (tok : Token)
    (hf : (sa.jwth.WithLog sa.l).FromJWT token = .ok tok)
    (hs : tok.Claims.Scope = "mender.users.initial.create") :
    (∀ resource action : String,
        sa.Authorize token resource action =
          if resource = "auth:login" ∨ (action = "POST" ∧ resource = "users:initial") then none
          else some ErrAuthzUnauthorized)
    ∧ sa.Authorize token "users:initial" "POST" = none
    ∧ sa.Authorize token "users:initial" "GET" = some ErrAuthzUnauthorized
    ∧ sa.Authorize token "auth:login" "POST" = none := by
  have key : ∀ resource action : String,
      sa.Authorize token resource action =
        if resource = "auth:login" ∨ (action = "POST" ∧ resource = "users:initial") then none
        else some ErrAuthzUnauthorized := by
    intro resource action
    by_cases hr : resource = ResourceLogin
    · have hr2 : resource = "auth:login" := hr
      rw [hr, authorize_login]
      simp [ResourceLogin]
    · have hr2 : ¬ resource = "auth:login" := hr
      rw [authorize_of_ok sa token resource action tok hr hf]
      simp only [ScopeInitialUserCreate, ResourceInitialUser]
      simp [hs, hr2]
  refine ⟨key, ?_, ?_, ?_⟩
  · rw [key]; decide
  · rw [key]; decide
  · rw [key]; decide

theorem bootstrap_allowlist_with_login_bypass_witness :
    (∀ resource action : String,
        (NewSimpleAuthz (scopeHandler "mender.users.initial.create") none).Authorize
            "bootstrap-token" resource action =
          if resource = "auth:login" ∨ (action = "POST" ∧ resource = "users:initial") then none
          else some ErrAuthzUnauthorized)
    ∧ (NewSimpleAuthz (scopeHandler "mender.users.initial.create") none).Authorize
        "bootstrap-token" "users:initial" "POST" = none
    ∧ (NewSimpleAuthz (scopeHandler "mender.users.initial.create") none).Authorize
        "bootstrap-token" "users:initial" "GET" = some ErrAuthzUnauthorized
    ∧ (NewSimpleAuthz (scopeHandler "mender.users.initial.create") none).Authorize
        "bootstrap-token" "auth:login" "POST" = none :=
  bootstrap_allowlist_with_login_bypass
    (NewSimpleAuthz (scopeHandler "mender.users.initial.create") none) "bootstrap-token"
    { Claims := { Scope := "mender.users.initial.create" } } rfl rfl

/-- C3. For every resource other than `auth:login` and every action, when `FromJWT` succeeds
with scope `mender.users.initial.create`, `Authorize` returns `nil` if the action is exactly
`POST` and the resource exactly `users:initial`, and `ErrAuthzUnauthorized` otherwise. -/
theorem bootstrap_scope_rule (sa : SimpleAuthz) (token resource action : String) (tok : Token)
    (hr : resource ≠ "auth:login")
    (hf : (sa.jwth.WithLog sa.l).FromJWT token = .ok tok)
    (hs : tok.Claims.Scope = "mender.users.initial.create") :
    (action = "POST" ∧ resource = "users:initial" →
        sa.Authorize token resource action = none)
    ∧ (¬ (action = "POST" ∧ resource = "users:initial") →
        sa.Authorize token resource action = some ErrAuthzUnauthorized) := by
  rw [authorize_of_ok sa token resource action tok hr hf]
  simp only [ScopeInitialUserCreate, ResourceInitialUser]
  constructor
  · intro h; simp [hs, h]
  · intro h; simp only [hs, if_true, h, if_false]

theorem bootstrap_scope_rule_witness :
    (NewSimpleAuthz (scopeHandler "mender.users.initial.create") none).Authorize
        "bootstrap-token" "users:initial" "POST" = none
    ∧ (NewSimpleAuthz (scopeHandler "mender.users.initial.create") none).Authorize
        "bootstrap-token" "users:initial" "post" = some ErrAuthzUnauthorized
    ∧ (NewSimpleAuthz (scopeHandler "mender.users.initial.create") none).Authorize
        "bootstrap-token" "Users:Initial" "POST" = some ErrAuthzUnauthorized :=
  ⟨(bootstrap_scope_rule (NewSimpleAuthz (scopeHandler "mender.users.initial.create") none)
      "bootstrap-token" "users:initial" "POST"
      { Claims := { Scope := "mender.users.initial.create" } }
      (by decide) rfl rfl).1 (by decide),
   (bootstrap_scope_rule (NewSimpleAuthz (scopeHandler "mender.users.initial.create") none)
      "bootstrap-token" "users:initial" "post"
      { Claims := { Scope := "mender.users.initial.create" } }
      (by decide) rfl rfl).2 (by decide),
   (bootstrap_scope_rule (NewSimpleAuthz (scopeHandler "mender.users.initial.create") none)
      "bootstrap-token" "Users:Initial" "POST"
      { Claims := { Scope := "mender.users.initial.create" } }
      (by decide) rfl rfl).2 (by decide)⟩

/-! ## Login bypass, invalid tokens, superuser scope, unknown scopes -/

/-- C4. For every handler, token string and action, `Authorize` on resource `auth:login`
returns `nil`; the result is the same for any two authorizers, among them one whose `FromJWT`
fails on every string, so the handler is not consulted. -/
theorem login_bypass (sa : SimpleAuthz) (token action : String) :
    sa.Authorize token "auth:login" action = none
    ∧ (∀ sa2 : SimpleAuthz,
        sa2.Authorize token "auth:login" action = sa.Authorize token "auth:login" action)
    ∧ (∀ (e : GoError) (l : Option Logger),
        (NewSimpleAuthz (rejectingHandler e) l).Authorize token "auth:login" action = none)
    ∧ sa.Authorize "" "auth:login" action = none := by
  have h := authorize_login
  simp only [ResourceLogin] at h
  refine ⟨h sa token action, fun sa2 => ?_, fun e l => h _ token action, h sa "" action⟩
  rw [h sa2, h sa]

/-- C5. For every resource other than `auth:login`, every action and every token on which
`FromJWT` returns an error, whatever the error, `Authorize` returns `ErrAuthzTokenInvalid`,
which is neither `nil` nor `ErrAuthzUnauthorized`. -/
theorem invalid_token_denied (sa : SimpleAuthz) (token resource action : String) (e : GoError)
    (hr : resource ≠ "auth:login")
    (hf : (sa.jwth.WithLog sa.l).FromJWT token = .error e) :
    sa.Authorize token resource action = some ErrAuthzTokenInvalid
    ∧ sa.Authorize token resource action ≠ none
    ∧ sa.Authorize token resource action ≠ some ErrAuthzUnauthorized := by
  rw [authorize_of_error sa token resource action e hr hf]
  exact ⟨rfl, by decide, by decide⟩

theorem invalid_token_denied_witness :
    (NewSimpleAuthz (rejectingHandler (.New "jwt: token invalid")) none).Authorize
        "not-a-token" "users:initial" "POST" = some ErrAuthzTokenInvalid :=
  (invalid_token_denied (NewSimpleAuthz (rejectingHandler (.New "jwt: token invalid")) none)
    "not-a-token" "users:initial" "POST" (.New "jwt: token invalid") (by decide) rfl).1

/-- C6. For every token that verifies with scope `mender.*`, and for every resource and every
action, `Authorize` returns `nil`. -/
theorem superuser_scope_allows (sa : SimpleAuthz) (token resource action : String) (tok : Token)
    (hf : (sa.jwth.WithLog sa.l).FromJWT token = .ok tok)
    (hs : tok.Claims.Scope = "mender.*") :
    sa.Authorize token resource action = none := by
  by_cases hr : resource = ResourceLogin
  · rw [hr, authorize_login]
  · rw [authorize_of_ok sa token resource action tok hr hf]
    simp only [ScopeInitialUserCreate, ScopeAll]
    have hne : ¬ ("mender.*" = "mender.users.initial.create") := by decide
    simp [hs, hne]

theorem superuser_scope_allows_witness :
    (NewSimpleAuthz (scopeHandler "mender.*") none).Authorize
        "superuser-token" "users:initial" "DELETE" = none :=
  superuser_scope_allows (NewSimpleAuthz (scopeHandler "mender.*") none)
    "superuser-token" "users:initial" "DELETE" { Claims := { Scope := "mender.*" } } rfl rfl

/-- C7. For every resource other than `auth:login`, every action and every token that verifies
with a scope that is neither `mender.*` nor `mender.users.initial.create`, `Authorize` returns
`ErrAuthzUnauthorized`. -/
theorem unknown_scope_denied (sa : SimpleAuthz) (token resource action : String) (tok : Token)
    (hr : resource ≠ "auth:login")
    (hf : (sa.jwth.WithLog sa.l).FromJWT token = .ok tok)
    (hall : tok.Claims.Scope ≠ "mender.*")
    (hinit : tok.Claims.Scope ≠ "mender.users.initial.create") :
    sa.Authorize token resource action = some ErrAuthzUnauthorized := by
  rw [authorize_of_ok sa token resource action tok hr hf]
  simp only [ScopeInitialUserCreate, ScopeAll]
  simp [hall, hinit]

theorem unknown_scope_denied_witness :
    (NewSimpleAuthz (scopeHandler "") none).Authorize "t" "users:initial" "POST"
        = some ErrAuthzUnauthorized
    ∧ (NewSimpleAuthz (scopeHandler "mender") none).Authorize "t" "users:initial" "POST"
        = some ErrAuthzUnauthorized
    ∧ (NewSimpleAuthz (scopeHandler "mender.users") none).Authorize "t" "users" "GET"
        = some ErrAuthzUnauthorized :=
  ⟨unknown_scope_denied (NewSimpleAuthz (scopeHandler "") none) "t" "users:initial" "POST"
      { Claims := { Scope := "" } } (by decide) rfl (by decide) (by decide),
   unknown_scope_denied (NewSimpleAuthz (scopeHandler "mender") none) "t" "users:initial" "POST"
      { Claims := { Scope := "mender" } } (by decide) rfl (by decide) (by decide),
   unknown_scope_denied (NewSimpleAuthz (scopeHandler "mender.users") none) "t" "users" "GET"
      { Claims := { Scope := "mender.users" } } (by decide) rfl (by decide) (by decide)⟩

/-! ## The two deny reasons -/

/-- C8. Whenever `Authorize` returns `ErrAuthzUnauthorized`, `FromJWT` succeeded on the token
and the resource is not `auth:login`; whenever it returns `ErrAuthzTokenInvalid`, `FromJWT`
failed on the token; and for one authorizer and one token the two deny reasons never both
occur, whatever resources and actions are asked for. -/
theorem deny_reasons_distinguished (sa : SimpleAuthz) (token resource action : String) :
    (sa.Authorize token resource action = some ErrAuthzUnauthorized →
        (∃ tok, (sa.jwth.WithLog sa.l).FromJWT token = .ok tok) ∧ resource ≠ "auth:login")
    ∧ (sa.Authorize token resource action = some ErrAuthzTokenInvalid →
        ∃ e, (sa.jwth.WithLog sa.l).FromJWT token = .error e)
    ∧ (∀ resource2 action2 : String,
        ¬ (sa.Authorize token resource action = some ErrAuthzUnauthorized
            ∧ sa.Authorize token resource2 action2 = some ErrAuthzTokenInvalid)) := by
  have unauth : ∀ r a : String, sa.Authorize token r a = some ErrAuthzUnauthorized →
      (∃ tok, (sa.jwth.WithLog sa.l).FromJWT token = .ok tok) ∧ r ≠ "auth:login" := by
    intro r a h
    by_cases hr : r = ResourceLogin
    · rw [hr, authorize_login] at h
      exact absurd h (by decide)
    · cases hf : (sa.jwth.WithLog sa.l).FromJWT token with
      | error e =>
        rw [authorize_of_error sa token r a e hr hf] at h
        exact absurd h (by decide)
      | ok tok => exact ⟨⟨tok, rfl⟩, hr⟩
  have invalid : ∀ r a : String, sa.Authorize token r a = some ErrAuthzTokenInvalid →
      ∃ e, (sa.jwth.WithLog sa.l).FromJWT token = .error e := by
    intro r a h
    by_cases hr : r = ResourceLogin
    · rw [hr, authorize_login] at h
      exact absurd h (by decide)
    · cases hf : (sa.jwth.WithLog sa.l).FromJWT token with
      | error e => exact ⟨e, rfl⟩
      | ok tok =>
        rw [authorize_of_ok sa token r a tok hr hf] at h
        split_ifs at h <;> exact absurd h (by decide)
  refine ⟨unauth resource action, invalid resource action, ?_⟩
  rintro resource2 action2 ⟨h1, h2⟩
  obtain ⟨⟨tok, hok⟩, _⟩ := unauth resource action h1
  obtain ⟨e, herr⟩ := invalid resource2 action2 h2
  rw [hok] at herr
  exact absurd herr (by simp)

theorem deny_reasons_distinguished_witness :
    ((∃ tok, ((NewSimpleAuthz (scopeHandler "mender") none).jwth.WithLog none).FromJWT "t"
          = .ok tok) ∧ "users:initial" ≠ "auth:login")
    ∧ (∃ e, ((NewSimpleAuthz (rejectingHandler (.New "jwt: token invalid")) none).jwth.WithLog
          none).FromJWT "not-a-token" = .error e) :=
  ⟨(deny_reasons_distinguished (NewSimpleAuthz (scopeHandler "mender") none)
      "t" "users:initial" "POST").1 (by decide),
   (deny_reasons_distinguished
      (NewSimpleAuthz (rejectingHandler (.New "jwt: token invalid")) none)
      "not-a-token" "users:initial" "POST").2.1 (by decide)⟩

/-! ## Login -/

/-- C9. For a store whose `IsEmpty` returns `(empty, err)`: when `err` is not `nil`, `Login`
returns no token and an error whose text is `useradm: failed to query database: ` followed by
the text of `err`; when `err` is `nil` and `empty` is false, it returns no token and
`ErrUnauthorized`; when `err` is `nil` and `empty` is true, it returns a token and no error.
When `empty` is false no token is returned. -/
theorem login_bootstrap_window (u : UserAdm) (now : Int) (rand : Nat → Nat)
    (email pass : String)
    (empty : Bool) (err : Option GoError)
    (h : u.db.IsEmpty = (empty, err)) :
    (∀ e, err = some e →
        ∃ e2, u.Login now rand email pass = (none, some e2)
          ∧ ∀ texts, e2.Error texts
              = "useradm: failed to query database: " ++ e.Error texts)
    ∧ (err = none → empty = false →
        u.Login now rand email pass = (none, some ErrUnauthorized))
    ∧ (err = none → empty = true →
        ∃ tok, u.Login now rand email pass = (some tok, none))
    ∧ (empty = false → (u.Login now rand email pass).1 = none) := by
  refine ⟨?_, ?_, ?_, ?_⟩
  · rintro e rfl
    refine ⟨GoError.Wrap e "useradm: failed to query database", ?_, ?_⟩
    · simp [UserAdm.Login, h]
    · intro texts
      simp [GoError.Error, String.append_assoc]
  · rintro rfl rfl
    simp [UserAdm.Login, h]
  · rintro rfl rfl
    simp [UserAdm.Login, h]
  · rintro rfl
    cases err <;> simp [UserAdm.Login, h]

theorem login_bootstrap_window_witness :
    (∃ e2, (NewUserAdm none (mockDataStore false (some (.New "db failed")) none) {}).Login
          1000 (fun _ => 0) "" "" = (none, some e2)
        ∧ ∀ texts, e2.Error texts
            = "useradm: failed to query database: " ++ (GoError.New "db failed").Error texts)
    ∧ (NewUserAdm none (mockDataStore false none none) {}).Login 1000 (fun _ => 0) "" ""
        = (none, some ErrUnauthorized)
    ∧ (∃ tok, (NewUserAdm none (mockDataStore true none none)
          { Issuer := "foobar", ExpirationTime := 10 }).Login 1000 (fun _ => 0) "" ""
        = (some tok, none)) :=
  ⟨(login_bootstrap_window
      (NewUserAdm none (mockDataStore false (some (.New "db failed")) none) {})
      1000 (fun _ => 0) "" "" false (some (.New "db failed")) rfl).1 (.New "db failed") rfl,
   (login_bootstrap_window (NewUserAdm none (mockDataStore false none none) {})
      1000 (fun _ => 0) "" "" false none rfl).2.1 rfl rfl,
   (login_bootstrap_window (NewUserAdm none (mockDataStore true none none)
      { Issuer := "foobar", ExpirationTime := 10 })
      1000 (fun _ => 0) "" "" true none rfl).2.2.1 rfl rfl⟩

/-- The identifier that `Login` draws is never the empty string, whatever the random bytes. -/
theorem newTokenID_ne_empty (rand : Nat → Nat) : newTokenID rand ≠ "" := by
  intro h
  have hlen := congrArg String.length h
  simp [newTokenID, hexByte] at hlen

/-- C10. For every configuration, every current time `now` and all random bytes, when the store
is empty `Login` returns a token whose claims have subject `initial`, scope
`mender.users.initial.create`, the configured issuer, a non-empty `ID`, `IssuedAt` equal to
`now`, and `ExpiresAt` equal to `now` plus the configured expiration. -/
theorem login_bootstrap_claims (u : UserAdm) (now : Int) (rand : Nat → Nat)
    (email pass : String)
    (h : u.db.IsEmpty = (true, none)) :
    ∃ tok, u.Login now rand email pass = (some tok, none)
      ∧ tok.Claims.Subject = "initial"
      ∧ tok.Claims.Scope = "mender.users.initial.create"
      ∧ tok.Claims.Issuer = u.config.Issuer
      ∧ tok.Claims.ID ≠ ""
      ∧ tok.Claims.IssuedAt = now
      ∧ tok.Claims.ExpiresAt = now + u.config.ExpirationTime := by
  have hl : u.Login now rand email pass =
      (some { Claims := { ID := newTokenID rand
                          Issuer := u.config.Issuer
                          IssuedAt := now
                          ExpiresAt := now + u.config.ExpirationTime
                          Subject := "initial"
                          Scope := ScopeInitialUserCreate } }, none) := by
    simp only [UserAdm.Login, h]
  exact ⟨_, hl, rfl, rfl, rfl, newTokenID_ne_empty rand, rfl, rfl⟩

theorem login_bootstrap_claims_witness :
    ∃ tok, (NewUserAdm none (mockDataStore true none none)
          { Issuer := "foobar", ExpirationTime := 10 }).Login 1000 (fun _ => 0) "" ""
        = (some tok, none)
      ∧ tok.Claims.Subject = "initial"
      ∧ tok.Claims.Scope = "mender.users.initial.create"
      ∧ tok.Claims.Issuer = "foobar"
      ∧ tok.Claims.ID ≠ ""
      ∧ tok.Claims.IssuedAt = 1000
      ∧ tok.Claims.ExpiresAt = 1000 + 10 :=
  login_bootstrap_claims (NewUserAdm none (mockDataStore true none none)
    { Issuer := "foobar", ExpirationTime := 10 }) 1000 (fun _ => 0) "" "" rfl

/-! ## User creation -/

/-- C11. For a store whose `IsEmpty` returns `(empty, err)`: when `err` is not `nil`,
`CreateUserInitial` returns an error whose text is `useradm: failed to check if db is empty: `
followed by the text of `err`; when `err` is `nil` and `empty` is false, it returns
`ErrUserNotInitial` and the store is the one it started with, so the store's `CreateUser` was
not called; when `err` is `nil` and `empty` is true, it does what `CreateUser` does: the same
store afterwards and the same returned error, `nil` on success. -/
theorem createUserInitial_checks_emptiness (u : UserAdm) (user : UserModel)
    (empty : Bool) (err : Option GoError)
    (h : u.db.IsEmpty = (empty, err)) :
    (∀ e, err = some e →
        ∃ e2, (u.CreateUserInitial user).2 = some e2
          ∧ ∀ texts, e2.Error texts
              = "useradm: failed to check if db is empty: " ++ e.Error texts)
    ∧ (err = none → empty = false →
        (u.CreateUserInitial user).2 = some ErrUserNotInitial
          ∧ (u.CreateUserInitial user).1 = u.db)
    ∧ (err = none → empty = true →
        u.CreateUserInitial user = u.CreateUser user
          ∧ ((u.db.CreateUser user).2 = none → (u.CreateUserInitial user).2 = none)) := by
  refine ⟨?_, ?_, ?_⟩
  · rintro e rfl
    refine ⟨GoError.Wrap e "useradm: failed to check if db is empty", ?_, ?_⟩
    · simp [UserAdm.CreateUserInitial, h]
    · intro texts
      simp [GoError.Error, String.append_assoc]
  · rintro rfl rfl
    simp [UserAdm.CreateUserInitial, h]
  · rintro rfl rfl
    have hc : u.CreateUserInitial user = u.CreateUser user := by
      simp [UserAdm.CreateUserInitial, h]
    refine ⟨hc, fun hn => ?_⟩
    rw [hc]
    cases hr : u.db.CreateUser user with
    | mk db e =>
      rw [hr] at hn
      simp only at hn
      simp [UserAdm.CreateUser, hr, hn]

theorem createUserInitial_checks_emptiness_witness :
    (∃ e2, ((NewUserAdm none
            (mockDataStore false (some (.New "no reachable servers")) none)
            {}).CreateUserInitial { Email := "foo@bar.com" }).2 = some e2
        ∧ ∀ texts, e2.Error texts
            = "useradm: failed to check if db is empty: "
                ++ (GoError.New "no reachable servers").Error texts)
    ∧ (((NewUserAdm none (mockDataStore false none (some ErrUserNotInitial))
            {}).CreateUserInitial { Email := "foo@bar.com" }).2 = some ErrUserNotInitial
        ∧ ((NewUserAdm none (mockDataStore false none (some ErrUserNotInitial))
            {}).CreateUserInitial { Email := "foo@bar.com" }).1
          = (NewUserAdm none (mockDataStore false none (some ErrUserNotInitial)) {}).db)
    ∧ ((NewUserAdm none (mockDataStore true none none) {}).CreateUserInitial
          { Email := "foo@bar.com" }
        = (NewUserAdm none (mockDataStore true none none) {}).CreateUser
          { Email := "foo@bar.com" }
        ∧ (((NewUserAdm none (mockDataStore true none none) {}).db.CreateUser
              { Email := "foo@bar.com" }).2 = none →
            ((NewUserAdm none (mockDataStore true none none) {}).CreateUserInitial
              { Email := "foo@bar.com" }).2 = none)) :=
  ⟨(createUserInitial_checks_emptiness
      (NewUserAdm none (mockDataStore false (some (.New "no reachable servers")) none) {})
      { Email := "foo@bar.com" } false (some (.New "no reachable servers")) rfl).1
      (.New "no reachable servers") rfl,
   (createUserInitial_checks_emptiness
      (NewUserAdm none (mockDataStore false none (some ErrUserNotInitial)) {})
      { Email := "foo@bar.com" } false none rfl).2.1 rfl rfl,
   (createUserInitial_checks_emptiness
      (NewUserAdm none (mockDataStore true none none) {})
      { Email := "foo@bar.com" } true none rfl).2.2 rfl rfl⟩

/-- C12. For every user and every result `e` of the store's `CreateUser`, `UserAdm.CreateUser`
returns `nil` when `e` is `nil`, returns `ErrDuplicateEmail` itself when `e` is
`ErrDuplicateEmail`, and for any other `e` returns an error whose text is
`useradm: failed to create user in the db: ` followed by the text of `e`; it returns `nil`
only when the store's `CreateUser` returned `nil`. The store afterwards is the one the store's
`CreateUser` left. -/
theorem createUser_error_mapping (u : UserAdm) (user : UserModel) (e : Option GoError)
    (h : (u.db.CreateUser user).2 = e) :
    (e = none → (u.CreateUser user).2 = none)
    ∧ (e = some ErrDuplicateEmail →
        (u.CreateUser user).2 = some ErrDuplicateEmail
          ∧ ∀ texts r, (u.CreateUser user).2 = some r →
              r.Error texts = ErrDuplicateEmail.Error texts)
    ∧ (∀ err, e = some err → err ≠ ErrDuplicateEmail →
        ∃ e2, (u.CreateUser user).2 = some e2
          ∧ ∀ texts, e2.Error texts
              = "useradm: failed to create user in the db: " ++ err.Error texts)
    ∧ ((u.CreateUser user).2 = none → e = none)
    ∧ (u.CreateUser user).1 = (u.db.CreateUser user).1 := by
  cases hr : u.db.CreateUser user with
  | mk db e0 =>
    rw [hr] at h
    simp only at h
    subst h
    refine ⟨?_, ?_, ?_, ?_, ?_⟩
    · rintro rfl
      simp [UserAdm.CreateUser, hr]
    · rintro rfl
      constructor
      · simp [UserAdm.CreateUser, hr]
      · intro texts r hres
        simp [UserAdm.CreateUser, hr] at hres
        rw [← hres]
    · rintro err rfl hne
      refine ⟨GoError.Wrap err "useradm: failed to create user in the db", ?_, ?_⟩
      · simp [UserAdm.CreateUser, hr, hne]
      · intro texts
        simp [GoError.Error, String.append_assoc]
    · intro hn
      cases e0 with
      | none => rfl
      | some err =>
        by_cases hd : err = ErrDuplicateEmail <;> simp [UserAdm.CreateUser, hr, hd] at hn
    · cases e0 with
      | none => simp [UserAdm.CreateUser, hr]
      | some err =>
        by_cases hd : err = ErrDuplicateEmail <;> simp [UserAdm.CreateUser, hr, hd]

theorem createUser_error_mapping_witness :
    ((NewUserAdm none (mockDataStore false none none) {}).CreateUser
        { Email := "foo@bar.com", Password := "correcthorsebatterystaple" }).2 = none
    ∧ ((NewUserAdm none (mockDataStore false none (some ErrDuplicateEmail)) {}).CreateUser
        { Email := "foo@bar.com", Password := "correcthorsebatterystaple" }).2
        = some ErrDuplicateEmail
    ∧ (∃ e2, ((NewUserAdm none
            (mockDataStore false none (some (.New "no reachable servers"))) {}).CreateUser
            { Email := "foo@bar.com", Password := "correcthorsebatterystaple" }).2 = some e2
        ∧ ∀ texts, e2.Error texts
            = "useradm: failed to create user in the db: "
                ++ (GoError.New "no reachable servers").Error texts) :=
  ⟨(createUser_error_mapping (NewUserAdm none (mockDataStore false none none) {})
      { Email := "foo@bar.com", Password := "correcthorsebatterystaple" } none rfl).1 rfl,
   ((createUser_error_mapping
      (NewUserAdm none (mockDataStore false none (some ErrDuplicateEmail)) {})
      { Email := "foo@bar.com", Password := "correcthorsebatterystaple" }
      (some ErrDuplicateEmail) rfl).2.1 rfl).1,
   (createUser_error_mapping
      (NewUserAdm none (mockDataStore false none (some (.New "no reachable servers"))) {})
      { Email := "foo@bar.com", Password := "correcthorsebatterystaple" }
      (some (.New "no reachable servers")) rfl).2.2.1 (.New "no reachable servers") rfl
      (by decide)⟩

/-! ## The structure of a token -/

/-- A padded base64url text that decodes consists of alphabet characters and `=`. -/
theorem decodeQuanta_chars : ∀ (n : Nat) (l : List Char) (bytes : List Nat), l.length ≤ n →
    decodeQuanta l = some bytes → ∀ x ∈ l, x = '=' ∨ (base64URLValue x).isSome
  | 0, l, _, hn, _ => by
    have : l = [] := List.length_eq_zero.mp (Nat.le_zero.mp hn)
    subst this; simp
  | _ + 1, [], _, _, _ => by simp
  | _ + 1, [_], _, _, h => by simp [decodeQuanta] at h
  | _ + 1, [_, _], _, _, h => by simp [decodeQuanta] at h
  | _ + 1, [_, _, _], _, _, h => by simp [decodeQuanta] at h
  | n + 1, a :: b :: c :: d :: rest, bytes, hn, h => by
    unfold decodeQuanta at h
    cases ha : base64URLValue a with
    | none => simp [ha] at h
    | some va =>
      cases hb : base64URLValue b with
      | none => simp [ha, hb] at h
      | some vb =>
        simp only [ha, hb] at h
        by_cases hc : c = '='
        · simp only [hc, if_true] at h
          by_cases hd : d = '=' ∧ rest = []
          · obtain ⟨hd1, hd2⟩ := hd
            subst hd1 hd2 hc
            intro x hx
            simp only [List.mem_cons, List.mem_nil_iff, or_false] at hx
            rcases hx with rfl | rfl | rfl | rfl
            · right; simp [ha]
            · right; simp [hb]
            · left; rfl
            · left; rfl
          · simp [hd] at h
        · simp only [hc, if_false] at h
          cases hcv : base64URLValue c with
          | none => simp [hcv] at h
          | some vc =>
            simp only [hcv] at h
            by_cases hd : d = '='
            · simp only [hd, if_true] at h
              by_cases hrest : rest = []
              · subst hrest hd
                intro x hx
                simp only [List.mem_cons, List.mem_nil_iff, or_false] at hx
                rcases hx with rfl | rfl | rfl | rfl
                · right; simp [ha]
                · right; simp [hb]
                · right; simp [hcv]
                · left; rfl
              · simp [hrest] at h
            · simp only [hd, if_false] at h
              cases hdv : base64URLValue d with
              | none => simp [hdv] at h
              | some vd =>
                simp only [hdv] at h
                cases hr : decodeQuanta rest with
                | none => simp [hr] at h
                | some rb =>
                  have ih := decodeQuanta_chars n rest rb (by simp at hn; omega) hr
                  intro x hx
                  simp only [List.mem_cons] at hx
                  rcases hx with rfl | rfl | rfl | rfl | hx
                  · right; simp [ha]
                  · right; simp [hb]
                  · right; simp [hcv]
                  · right; simp [hdv]
                  · exact ih x hx

/-- A segment that decodes holds no dot. -/
theorem decodeSegment_no_dot (seg : List Char) (h : (DecodeSegment seg).isSome) :
    '.' ∉ seg := by
  intro hmem
  obtain ⟨bytes, hb⟩ := Option.isSome_iff_exists.mp h
  simp only [DecodeSegment, DecodeString] at hb
  have hin : '.' ∈ List.filter (fun c => !(decide (c = '\n') || decide (c = '\r')))
      (if (String.mk seg).utf8ByteSize % 4 > 0
        then seg ++ List.replicate (4 - (String.mk seg).utf8ByteSize % 4) '=' else seg) := by
    rw [List.mem_filter]
    refine ⟨?_, by decide⟩
    split_ifs
    · exact List.mem_append_left _ hmem
    · exact hmem
  rcases decodeQuanta_chars _ _ bytes (le_refl _) hb '.' hin with h1 | h1
  · exact absurd h1 (by decide)
  · exact absurd h1 (by decide)

/-- The description of three base64url segments and the computed check agree. -/
theorem isThreeBase64URLSegments_iff_check (tokstr : String) :
    IsThreeBase64URLSegments tokstr ↔ threeSegmentsCheck tokstr = true := by
  constructor
  · rintro ⟨h, p, g, heq, hh, hp, hg⟩
    have hsplit : tokstr.data.splitOn '.' = [h, p, g] := by
      have : (['.'].intercalate [h, p, g]).splitOn '.' = [h, p, g] :=
        List.splitOn_intercalate [h, p, g] '.' (by
        intro l hl
        simp only [List.mem_cons, List.mem_nil_iff, or_false] at hl
        rcases hl with rfl | rfl | rfl
        · exact decodeSegment_no_dot _ hh
        · exact decodeSegment_no_dot _ hp
        · exact decodeSegment_no_dot _ hg) (by simp)
      rw [← this, heq]
      simp [List.intercalate]
    simp [threeSegmentsCheck, hsplit, hh, hp, hg]
  · intro hc
    unfold threeSegmentsCheck at hc
    split at hc
    · rename_i h p g hsplit
      simp only [Bool.and_eq_true] at hc
      refine ⟨h, p, g, ?_, hc.1.1, hc.1.2, hc.2⟩
      have hjoin := List.intercalate_splitOn tokstr.data '.'
      rw [hsplit] at hjoin
      rw [← hjoin]
      simp [List.intercalate]
    · exact absurd hc (by simp)

/-- C14. For every input string that is not three base64url segments separated by dots,
`FromJWT` returns no token, and the error it returns has the text `jwt: token invalid`. -/
theorem fromJWT_rejects_malformed (j : JWTHandlerRS256) (tokstr : String)
    (h : ¬ IsThreeBase64URLSegments tokstr) :
    ∃ e, j.FromJWT tokstr = .error e ∧ ∀ texts, e.Error texts = "jwt: token invalid" := by
  refine ⟨ErrTokenInvalid, ?_, fun _ => rfl⟩
  unfold JWTHandlerRS256.FromJWT
  split
  · rename_i header payload signature hsplit
    split
    · rename_i hb pb gb hh hp hg
      exfalso
      apply h
      refine ⟨header, payload, signature, ?_, by simp [hh], by simp [hp], by simp [hg]⟩
      have hjoin := List.intercalate_splitOn tokstr.data '.'
      rw [hsplit] at hjoin
      rw [← hjoin]
      simp [List.intercalate]
    · rfl
  · rfl

theorem fromJWT_rejects_malformed_witness :
    (∃ e, (acceptingRS256 { Scope := "mender.*" }).FromJWT "1234123412341234" = .error e
      ∧ ∀ texts, e.Error texts = "jwt: token invalid")
    ∧ (∃ e, (acceptingRS256 { Scope := "mender.*" }).FromJWT "A.B.C" = .error e
      ∧ ∀ texts, e.Error texts = "jwt: token invalid")
    ∧ (∃ e, (acceptingRS256 { Scope := "mender.*" }).FromJWT "QQ.QQ.QQ.QQ" = .error e
      ∧ ∀ texts, e.Error texts = "jwt: token invalid") :=
  ⟨fromJWT_rejects_malformed (acceptingRS256 { Scope := "mender.*" }) "1234123412341234"
      (fun h => absurd ((isThreeBase64URLSegments_iff_check _).mp h) (by decide)),
   fromJWT_rejects_malformed (acceptingRS256 { Scope := "mender.*" }) "A.B.C"
      (fun h => absurd ((isThreeBase64URLSegments_iff_check _).mp h) (by decide)),
   fromJWT_rejects_malformed (acceptingRS256 { Scope := "mender.*" }) "QQ.QQ.QQ.QQ"
      (fun h => absurd ((isThreeBase64URLSegments_iff_check _).mp h) (by decide))⟩

/-- Segments are read with or without their padding: `QQ`, `QQ=` and `QQ==` all stand for the
byte 65, a lone character stands for nothing, and a token of three padded segments passes the
structural stage. -/
theorem decodeSegment_padding :
    DecodeSegment "QQ".data = some [65]
    ∧ DecodeSegment "QQ=".data = some [65]
    ∧ DecodeSegment "QQ==".data = some [65]
    ∧ DecodeSegment "A".data = none
    ∧ IsThreeBase64URLSegments "QQ.QQ.QQ=="
    ∧ (acceptingRS256 { Scope := "mender.*" }).FromJWT "QQ.QQ.QQ=="
        = .ok { Claims := { Scope := "mender.*" } } := by
  refine ⟨by decide, by decide, by decide, by decide, ?_, rfl⟩
  exact (isThreeBase64URLSegments_iff_check _).mpr (by decide)

/-- The header segment of the tokens in `jwt_test.go` decodes to the bytes of
`{"alg":"RS256","typ":"JWT"}`. -/
theorem decodeSegment_test_header :
    (DecodeSegment "eyJhbGciOiJSUzI1NiIsInR5cCI6IkpXVCJ9".data).map
        (fun bytes => String.mk (bytes.map Char.ofNat))
      = some "\x7b\"alg\":\"RS256\",\"typ\":\"JWT\"\x7d" := by
  decide

/-! ## Properties that follow from the shape of `Authorize` -/

/-- C15. For every resource and action and any two tokens on which `FromJWT` succeeds with the
same scope, `Authorize` returns the same result, whatever the other claims of the two tokens
are. -/
theorem decision_depends_on_scope_only (sa : SimpleAuthz) (t1 t2 resource action : String)
    (tok1 tok2 : Token)
    (h1 : (sa.jwth.WithLog sa.l).FromJWT t1 = .ok tok1)
    (h2 : (sa.jwth.WithLog sa.l).FromJWT t2 = .ok tok2)
    (hs : tok1.Claims.Scope = tok2.Claims.Scope) :
    sa.Authorize t1 resource action = sa.Authorize t2 resource action := by
  by_cases hr : resource = ResourceLogin
  · rw [hr, authorize_login, authorize_login]
  · rw [authorize_of_ok sa t1 resource action tok1 hr h1,
      authorize_of_ok sa t2 resource action tok2 hr h2, hs]

theorem decision_depends_on_scope_only_witness :
    (NewSimpleAuthz (tableHandler (fun t =>
        if t = "expired" then
          .ok { Claims := { Issuer := "a", Subject := "b", Audience := "c", ID := "d",
                            IssuedAt := 1, NotBefore := 2, ExpiresAt := 3,
                            Scope := "mender.*" } }
        else
          .ok { Claims := { Issuer := "Mender", Subject := "foo", Audience := "Mender",
                            ID := "someid", IssuedAt := 1234567, NotBefore := 12345678,
                            ExpiresAt := 2147483647, Scope := "mender.*" } })) none).Authorize
        "expired" "users:initial" "DELETE"
    = (NewSimpleAuthz (tableHandler (fun t =>
        if t = "expired" then
          .ok { Claims := { Issuer := "a", Subject := "b", Audience := "c", ID := "d",
                            IssuedAt := 1, NotBefore := 2, ExpiresAt := 3,
                            Scope := "mender.*" } }
        else
          .ok { Claims := { Issuer := "Mender", Subject := "foo", Audience := "Mender",
                            ID := "someid", IssuedAt := 1234567, NotBefore := 12345678,
                            ExpiresAt := 2147483647, Scope := "mender.*" } })) none).Authorize
        "current" "users:initial" "DELETE" :=
  decision_depends_on_scope_only _ "expired" "current" "users:initial" "DELETE"
    { Claims := { Issuer := "a", Subject := "b", Audience := "c", ID := "d",
                  IssuedAt := 1, NotBefore := 2, ExpiresAt := 3, Scope := "mender.*" } }
    { Claims := { Issuer := "Mender", Subject := "foo", Audience := "Mender",
                  ID := "someid", IssuedAt := 1234567, NotBefore := 12345678,
                  ExpiresAt := 2147483647, Scope := "mender.*" } }
    rfl rfl rfl

/-- When `WithLog` keeps the `FromJWT` behaviour of the handler of `sa` but not that of the
handler it hands to the new authorizer, the decisions of the two authorizers can differ. -/
theorem withLog_proviso_needed_for_both_handlers :
    (∀ (l : Option Logger) (t : String),
        ((NewSimpleAuthz countingHandler none).jwth.WithLog l).FromJWT t
          = (NewSimpleAuthz countingHandler none).jwth.FromJWT t)
    ∧ ((NewSimpleAuthz countingHandler none).WithLog none).Authorize "t" "users" "GET"
        ≠ (NewSimpleAuthz countingHandler none).Authorize "t" "users" "GET" := by
  refine ⟨fun _ _ => rfl, by decide⟩

/-- C16. Provided the handler's `WithLog` returns a handler with the same `FromJWT` behaviour,
both for the handler of `sa` and for the handler that `sa.WithLog(l)` holds, for every logger
`l`, token, resource and action `sa.WithLog(l).Authorize` returns what `sa.Authorize` returns;
`WithLog` builds a new authorizer, over `sa.jwth.WithLog(l)` and `l`, and `sa` stays as it
was. -/
theorem withLog_keeps_decisions (sa : SimpleAuthz) (l : Option Logger)
    (token resource action : String)
    (h1 : ∀ (l2 : Option Logger) (t : String),
      (sa.jwth.WithLog l2).FromJWT t = sa.jwth.FromJWT t)
    (h2 : ∀ (l2 : Option Logger) (t : String),
      ((sa.WithLog l).jwth.WithLog l2).FromJWT t = (sa.WithLog l).jwth.FromJWT t) :
    (sa.WithLog l).Authorize token resource action = sa.Authorize token resource action
    ∧ (sa.WithLog l).jwth = sa.jwth.WithLog l
    ∧ (sa.WithLog l).l = l := by
  refine ⟨?_, rfl, rfl⟩
  have hnew : ((sa.WithLog l).jwth.WithLog (sa.WithLog l).l).FromJWT token
      = (sa.jwth.WithLog sa.l).FromJWT token := by
    rw [h2 (sa.WithLog l).l token, h1 sa.l token]
    exact h1 l token
  simp only [SimpleAuthz.Authorize, hnew]

theorem withLog_keeps_decisions_witness :
    ((NewSimpleAuthz (loggedHandler (fun _ => .ok { Claims := { Scope := "mender" } }) none)
        none).WithLog (some { tag := 7 })).Authorize "t" "users:initial" "POST"
      = (NewSimpleAuthz (loggedHandler (fun _ => .ok { Claims := { Scope := "mender" } }) none)
          none).Authorize "t" "users:initial" "POST" :=
  (withLog_keeps_decisions
    (NewSimpleAuthz (loggedHandler (fun _ => .ok { Claims := { Scope := "mender" } }) none) none)
    (some { tag := 7 }) "t" "users:initial" "POST" (fun _ _ => rfl) (fun _ _ => rfl)).1

/-- C17. For every resource and action, whenever `Authorize` allows a verified token with scope
`mender.users.initial.create` it also allows a verified token with scope `mender.*`; and on
(`users:initial`, `DELETE`) the `mender.*` token is allowed while the bootstrap token is
not. -/
theorem bootstrap_weaker_than_superuser (saB saS : SimpleAuthz) (tB tS : String)
    (tokB tokS : Token)
    (hB : (saB.jwth.WithLog saB.l).FromJWT tB = .ok tokB)
    (hsB : tokB.Claims.Scope = "mender.users.initial.create")
    (hS : (saS.jwth.WithLog saS.l).FromJWT tS = .ok tokS)
    (hsS : tokS.Claims.Scope = "mender.*") :
    (∀ resource action : String,
        saB.Authorize tB resource action = none → saS.Authorize tS resource action = none)
    ∧ saS.Authorize tS "users:initial" "DELETE" = none
    ∧ saB.Authorize tB "users:initial" "DELETE" = some ErrAuthzUnauthorized
    ∧ saB.Authorize tB "users:initial" "DELETE" ≠ none := by
  have hne : ¬ ("mender.*" = "mender.users.initial.create") := by decide
  have super : ∀ resource action : String, saS.Authorize tS resource action = none := by
    intro resource action
    by_cases hr : resource = ResourceLogin
    · rw [hr, authorize_login]
    · rw [authorize_of_ok saS tS resource action tokS hr hS]
      simp only [ScopeInitialUserCreate, ScopeAll]
      simp [hsS, hne]
  have boot : saB.Authorize tB "users:initial" "DELETE" = some ErrAuthzUnauthorized := by
    rw [authorize_of_ok saB tB "users:initial" "DELETE" tokB (by decide) hB]
    simp only [ScopeInitialUserCreate]
    simp [hsB]
  refine ⟨fun resource action _ => super resource action, super _ _, boot, ?_⟩
  rw [boot]
  decide

theorem bootstrap_weaker_than_superuser_witness :
    (∀ resource action : String,
        (NewSimpleAuthz (scopeHandler "mender.users.initial.create") none).Authorize
            "bootstrap-token" resource action = none →
          (NewSimpleAuthz (scopeHandler "mender.*") none).Authorize
            "superuser-token" resource action = none)
    ∧ (NewSimpleAuthz (scopeHandler "mender.*") none).Authorize
        "superuser-token" "users:initial" "DELETE" = none
    ∧ (NewSimpleAuthz (scopeHandler "mender.users.initial.create") none).Authorize
        "bootstrap-token" "users:initial" "DELETE" = some ErrAuthzUnauthorized
    ∧ (NewSimpleAuthz (scopeHandler "mender.users.initial.create") none).Authorize
        "bootstrap-token" "users:initial" "DELETE" ≠ none :=
  bootstrap_weaker_than_superuser
    (NewSimpleAuthz (scopeHandler "mender.users.initial.create") none)
    (NewSimpleAuthz (scopeHandler "mender.*") none) "bootstrap-token" "superuser-token"
    { Claims := { Scope := "mender.users.initial.create" } }
    { Claims := { Scope := "mender.*" } } rfl rfl rfl rfl

end Useradm
